import Mathlib

/-!
# Verification of the rice-marketplace web application (`src/app.py`)

Shallow embedding of the Flask application: the two live database tables
(`Farmer`, `RiceProduct`), the dead `User` table with its password methods,
the WTForms form data together with their `validate_on_submit` checks, and
the route handlers `/`, `/login`, `/register`, `/sell_rice`,
`/product/<id>` and `/buy_now/<id>` as pure functions on an explicit
database/session state.

Conventions of the embedding:
* The SQLite store is a pair of lists of rows; `db.session.add` followed by
  `commit` appends a row whose autoincrement id is one more than the
  maximum existing id.
* The Flask session is `Option Nat`, the logged-in account id (`login_user`
  stores the id; `current_user` is recovered through the `load_user`
  callback, i.e. `Farmer.query.get`).
* A handler maps (database, session, request form data) to
  (response, database, session); `flash` messages are carried on the
  response that ends the request.
* Werkzeug's `generate_password_hash` / `check_password_hash` and
  `secure_filename` are third-party library calls, modelled below with
  the library's interface contract (format `method$salt$digest`, check by
  recomputing the digest from the stored salt); the cryptographic digest
  itself is abstracted by a deterministic salt-and-password-dependent
  function, which is all the application's behaviour depends on.
-/

/-- Model of werkzeug's salted digest: a deterministic, `'$'`-free function
of the salt and the password standing in for the cryptographic digest
(the routes only ever compare recomputations of it). -/
def hashDigest (salt : Char) (password : String) : List Char :=
  salt :: password.data

/-- Model of werkzeug `generate_password_hash`: a string
`"scrypt$" ++ salt ++ "$" ++ digest` in the library's
`method$salt$digest` format, salted by `salt`. -/
def generate_password_hash (salt : Char) (password : String) : String :=
  String.mk (['s', 'c', 'r', 'y', 'p', 't', '$'] ++ salt :: '$' :: hashDigest salt password)

/-- Model of werkzeug `check_password_hash`: parse the stored string as
`method$salt$digest` and compare the digest recomputed from the candidate
password with the stored digest. -/
def check_password_hash (stored candidate : String) : Bool :=
  match stored.data with
  | 's' :: 'c' :: 'r' :: 'y' :: 'p' :: 't' :: '$' :: saltc :: '$' :: digest =>
      digest == hashDigest saltc candidate
  | _ => false

/-- Model of werkzeug `secure_filename`: keep only alphanumeric characters,
dots, underscores and dashes of the client-supplied filename. -/
def secure_filename (filename : String) : String :=
  String.mk (filename.data.filter (fun c => c.isAlphanum || c == '.' || c == '_' || c == '-'))

/-- Row of the `farmer` table (`class Farmer`, src/app.py lines 25–31). -/
structure Farmer where
  id : Nat
  username : String
  password : String
  role : String
  qr_code : Option String
deriving Repr, DecidableEq

/-- Row of the `rice_product` table (`class RiceProduct`, src/app.py lines
33–40).  The form submits `price` and `quantity` as strings
(`StringField`) and the handler stores `form.price.data` /
`form.quantity.data` verbatim, so the embedding keeps them as the
submitted strings. -/
structure RiceProduct where
  id : Nat
  name : String
  description : String
  price : String
  quantity : String
  image : Option String
  farmer_id : Nat
deriving Repr, DecidableEq

/-- Row of the dead `user` table (`class User`, src/app.py lines 63–73). -/
structure User where
  id : Nat
  username : String
  email : String
  password : String
deriving Repr, DecidableEq

/-- `User.set_password` (src/app.py lines 69–70): store the salted hash of
the given password. -/
def User.set_password (u : User) (salt : Char) (password : String) : User :=
  { u with password := generate_password_hash salt password }

/-- `User.check_password` (src/app.py lines 72–73). -/
def User.check_password (u : User) (password : String) : Bool :=
  check_password_hash u.password password

/-- The persistent store: the two tables the routes touch. -/
structure DB where
  farmers : List Farmer
  products : List RiceProduct
deriving Repr, DecidableEq

/-- `LoginForm` field data (src/app.py lines 43–46). -/
structure LoginFormData where
  username : String
  password : String
deriving Repr, DecidableEq

/-- `LoginForm.validate_on_submit` field validation: both fields carry
`DataRequired`. -/
def LoginFormData.validates (f : LoginFormData) : Bool :=
  !(f.username == "") && !(f.password == "")

/-- `RegisterForm` field data (src/app.py lines 48–53). -/
structure RegisterFormData where
  username : String
  password : String
  confirm_password : String
  role : String
deriving Repr, DecidableEq

/-- `RegisterForm.validate_on_submit`: `DataRequired` on username, password
and confirmation, `EqualTo('password')` on the confirmation, and the
`SelectField` restricts the role to its two choices. -/
def RegisterFormData.validates (f : RegisterFormData) : Bool :=
  !(f.username == "") && !(f.password == "") && !(f.confirm_password == "") &&
    (f.confirm_password == f.password) && (f.role == "farmer" || f.role == "buyer")

/-- `SellRiceForm` field data (src/app.py lines 55–61); `image` is the
optional uploaded file, recorded by its client-supplied filename. -/
structure SellRiceFormData where
  name : String
  description : String
  price : String
  quantity : String
  image : Option String
deriving Repr, DecidableEq

/-- `SellRiceForm.validate_on_submit`: `DataRequired` on name, price and
quantity; description and image are optional. -/
def SellRiceFormData.validates (f : SellRiceFormData) : Bool :=
  !(f.name == "") && !(f.price == "") && !(f.quantity == "")

/-- The data a template is rendered with. -/
inductive Page where
  | indexPage (products : List RiceProduct)
  | loginPage
  | registerPage
  | sellRicePage
  | productDetailsPage (product : RiceProduct)
  | paymentPage (product : RiceProduct) (farmer_qr_code : Option String)
deriving Repr, DecidableEq

/-- The response ending a request: a rendered template, an HTTP 302
redirect, or the HTTP 404 produced by `get_or_404`.  Flash messages
emitted during the request ride along. -/
inductive Response where
  | render (page : Page) (flashes : List String)
  | redirect (target : String) (flashes : List String)
  | notFound
deriving Repr, DecidableEq

/-- `current_user`: the session's stored account id resolved through the
`load_user` callback `Farmer.query.get` (src/app.py lines 76–78).  An id
that resolves to no row leaves the request anonymous. -/
def currentUser (db : DB) (session : Option Nat) : Option Farmer :=
  match session with
  | some i => db.farmers.find? (fun f => f.id == i)
  | none => none

/-- Autoincrement id for a `farmer` insert. -/
def nextFarmerId (db : DB) : Nat :=
  (db.farmers.map Farmer.id).foldr max 0 + 1

/-- Autoincrement id for a `rice_product` insert. -/
def nextProductId (db : DB) : Nat :=
  (db.products.map RiceProduct.id).foldr max 0 + 1

/-- Route `/` (`index`, src/app.py lines 82–85): render the catalog with
every product row. -/
def index (db : DB) (session : Option Nat) : Response × DB × Option Nat :=
  (Response.render (Page.indexPage db.products) [], db, session)

/-- Route `/login` (`login`, src/app.py lines 88–99).  `form = none`
models a GET or a non-submitting request. -/
def login (db : DB) (session : Option Nat) (form : Option LoginFormData) :
    Response × DB × Option Nat :=
  match form with
  | some f =>
    if f.validates then
      match db.farmers.find? (fun fr => fr.username == f.username) with
      | some farmer =>
        if check_password_hash farmer.password f.password then
          (Response.redirect "/" ["Logged in successfully!"], db, some farmer.id)
        else
          (Response.render Page.loginPage ["Invalid username or password"], db, session)
      | none =>
          (Response.render Page.loginPage ["Invalid username or password"], db, session)
    else (Response.render Page.loginPage [], db, session)
  | none => (Response.render Page.loginPage [], db, session)

/-- Route `/register` (`register`, src/app.py lines 117–138).  `salt` is
the salt werkzeug draws when hashing the new password. -/
def register (db : DB) (session : Option Nat) (salt : Char)
    (form : Option RegisterFormData) : Response × DB × Option Nat :=
  match form with
  | some f =>
    if f.validates then
      match db.farmers.find? (fun fr => fr.username == f.username) with
      | some _ =>
          (Response.redirect "/register" ["Username already exists. Please choose another."],
            db, session)
      | none =>
        let farmer : Farmer :=
          { id := nextFarmerId db
            username := f.username
            password := generate_password_hash salt f.password
            role := f.role
            qr_code := none }
        (Response.redirect "/login" ["Registered successfully!"],
          { db with farmers := db.farmers ++ [farmer] }, session)
    else (Response.render Page.registerPage [], db, session)
  | none => (Response.render Page.registerPage [], db, session)

/-- Route `/sell_rice` (`sell_rice`, src/app.py lines 141–170), guarded by
`login_required` (anonymous requests are redirected to the login view). -/
def sell_rice (db : DB) (session : Option Nat) (form : Option SellRiceFormData) :
    Response × DB × Option Nat :=
  match currentUser db session with
  | none => (Response.redirect "/login" [], db, session)
  | some user =>
    if !(user.role == "farmer") then
      (Response.redirect "/" ["You must be a farmer to sell rice."], db, session)
    else
      match form with
      | some f =>
        if f.validates then
          let filename : Option String :=
            match f.image with
            | some img => some (secure_filename img)
            | none => none
          let rice : RiceProduct :=
            { id := nextProductId db
              name := f.name
              description := f.description
              price := f.price
              quantity := f.quantity
              image := filename
              farmer_id := user.id }
          (Response.redirect "/" ["Rice product added!"],
            { db with products := db.products ++ [rice] }, session)
        else (Response.render Page.sellRicePage [], db, session)
      | none => (Response.render Page.sellRicePage [], db, session)

/-- Route `/product/<id>` (`product_details`, src/app.py lines 173–176):
`get_or_404` then render the detail page with the stored row. -/
def product_details (db : DB) (session : Option Nat) (id : Nat) :
    Response × DB × Option Nat :=
  match db.products.find? (fun p => p.id == id) with
  | some product => (Response.render (Page.productDetailsPage product) [], db, session)
  | none => (Response.notFound, db, session)

/-- Route `/buy_now/<id>` (`buy_now`, src/app.py lines 210–227), guarded by
`login_required`: role check, `get_or_404` on the product, `get_or_404` on
the owning farmer, then render the payment page with the product and the
farmer's stored `qr_code`. -/
def buy_now (db : DB) (session : Option Nat) (id : Nat) :
    Response × DB × Option Nat :=
  match currentUser db session with
  | none => (Response.redirect "/login" [], db, session)
  | some user =>
    if !(user.role == "buyer") then
      (Response.redirect "/" ["Only buyers can make purchases."], db, session)
    else
      match db.products.find? (fun p => p.id == id) with
      | none => (Response.notFound, db, session)
      | some product =>
        match db.farmers.find? (fun f => f.id == product.farmer_id) with
        | none => (Response.notFound, db, session)
        | some farmer =>
          (Response.render (Page.paymentPage product farmer.qr_code) [], db, session)

/-! ## Library-model lemmas and small helpers -/

/-- Checking a freshly generated hash against the password it was generated
from succeeds (werkzeug round-trip contract). -/
theorem check_generate (salt : Char) (p : String) :
    check_password_hash (generate_password_hash salt p) p = true := by
  simp [check_password_hash, generate_password_hash]

/-- A generated hash is never the plaintext password (it is strictly
longer). -/
theorem generate_ne_plaintext (salt : Char) (p : String) :
    generate_password_hash salt p ≠ p := by
  intro h
  have hlen := congrArg (fun s => s.data.length) h
  simp [generate_password_hash, hashDigest] at hlen
  omega

/-- `find?` over a list extended on the right: if the predicate misses the
whole list and accepts the appended element, it finds that element. -/
theorem find?_append_singleton {α : Type} (pred : α → Bool) (l : List α) (x : α)
    (hl : l.find? pred = none) (hx : pred x = true) :
    (l ++ [x]).find? pred = some x := by
  induction l with
  | nil => simp [List.find?, hx]
  | cons a as ih =>
    simp only [List.find?, List.cons_append] at hl ⊢
    cases hpa : pred a with
    | true => simp [hpa] at hl
    | false =>
      simp only [hpa] at hl ⊢
      exact ih hl

/-- Whether a response is an HTTP 302 redirect. -/
def Response.isRedirect : Response → Bool
  | .redirect _ _ => true
  | _ => false

/-- Whether a response is a rendered template. -/
def Response.isRender : Response → Bool
  | .render _ _ => true
  | _ => false

/-! ## Concrete sample data used by the witness theorems -/

/-- A farmer-role account whose password hash was generated from "pw". -/
def aliceFarmer : Farmer :=
  { id := 1, username := "alice", password := generate_password_hash 'x' "pw",
    role := "farmer", qr_code := none }

/-- A buyer-role account whose password hash was generated from "pw2". -/
def bobBuyer : Farmer :=
  { id := 2, username := "bob", password := generate_password_hash 'y' "pw2",
    role := "buyer", qr_code := none }

/-- A stored product row owned by `aliceFarmer`. -/
def basmatiRow : RiceProduct :=
  { id := 1, name := "Basmati", description := "", price := "120.5",
    quantity := "50", image := none, farmer_id := 1 }

/-- Sample store with the two accounts and no products. -/
def sampleDB : DB := { farmers := [aliceFarmer, bobBuyer], products := [] }

/-- Sample store with the two accounts and one product. -/
def sampleDB1 : DB := { farmers := [aliceFarmer, bobBuyer], products := [basmatiRow] }

/-- A product row whose `farmer_id` (99) matches no farmer row. -/
def orphanRow : RiceProduct :=
  { id := 1, name := "n", description := "", price := "1", quantity := "1",
    image := none, farmer_id := 99 }

/-- Sample store holding one buyer and one orphaned product. -/
def orphanDB : DB := { farmers := [bobBuyer], products := [orphanRow] }

/-- The `/sell_rice` submission of the spec's concrete scenario. -/
def basmatiForm : SellRiceFormData :=
  { name := "Basmati", description := "", price := "120.5", quantity := "50",
    image := none }

/-! ## Claim theorems -/

/-- **C1.** For every logged-in account with role `farmer`, a valid
`/sell_rice` form submission with no image file attached creates exactly
one new `RiceProduct` row whose `image` field is null and whose
`farmer_id` equals the submitting account's id, and the catalog route `/`
subsequently includes that product in its listing. -/
theorem C1_sell_rice_creates_listed_product
    (db : DB) (session : Option Nat) (user : Farmer) (f : SellRiceFormData)
    (hu : currentUser db session = some user)
    (hrole : user.role = "farmer")
    (hv : f.validates = true)
    (himg : f.image = none) :
    ∃ p : RiceProduct,
      p.image = none ∧ p.farmer_id = user.id ∧
      p.name = f.name ∧ p.price = f.price ∧ p.quantity = f.quantity ∧
      (sell_rice db session (some f)).2.1.products = db.products ++ [p] ∧
      (index (sell_rice db session (some f)).2.1
          (sell_rice db session (some f)).2.2).1 =
        Response.render (Page.indexPage (db.products ++ [p])) [] ∧
      p ∈ db.products ++ [p] := by
  refine ⟨{ id := nextProductId db, name := f.name, description := f.description,
            price := f.price, quantity := f.quantity, image := none,
            farmer_id := user.id }, rfl, rfl, rfl, rfl, rfl, ?_, ?_, ?_⟩ <;>
    simp [sell_rice, index, hu, hrole, hv, himg]

/-- Witness for C1: Alice (farmer, id 1) submits the Basmati form with no
image against the sample store. -/
theorem C1_sell_rice_creates_listed_product_witness :
    currentUser sampleDB (some 1) = some aliceFarmer ∧
    aliceFarmer.role = "farmer" ∧
    basmatiForm.validates = true ∧
    basmatiForm.image = none ∧
    ∃ p : RiceProduct,
      p.image = none ∧ p.farmer_id = aliceFarmer.id ∧
      p.name = basmatiForm.name ∧ p.price = basmatiForm.price ∧
      p.quantity = basmatiForm.quantity ∧
      (sell_rice sampleDB (some 1) (some basmatiForm)).2.1.products =
        sampleDB.products ++ [p] ∧
      (index (sell_rice sampleDB (some 1) (some basmatiForm)).2.1
          (sell_rice sampleDB (some 1) (some basmatiForm)).2.2).1 =
        Response.render (Page.indexPage (sampleDB.products ++ [p])) [] ∧
      p ∈ sampleDB.products ++ [p] :=
  ⟨rfl, rfl, rfl, rfl,
    C1_sell_rice_creates_listed_product sampleDB (some 1) aliceFarmer basmatiForm
      rfl rfl rfl rfl⟩

/-- **C2.** A `/register` submission whose username already names a
`Farmer` row is rejected with the "username already exists" outcome and
the store is unchanged; with a fresh username it creates the account with
the salted hash (not the plaintext) and the chosen role, and redirects to
the login page. -/
theorem C2_register_duplicate_rejected_fresh_created
    (db : DB) (session : Option Nat) (salt : Char) (f : RegisterFormData)
    (hv : f.validates = true) :
    ((db.farmers.find? (fun fr => fr.username == f.username)).isSome = true →
      register db session salt (some f) =
        (Response.redirect "/register"
          ["Username already exists. Please choose another."], db, session)) ∧
    (db.farmers.find? (fun fr => fr.username == f.username) = none →
      ∃ nf : Farmer,
        nf.username = f.username ∧
        nf.password = generate_password_hash salt f.password ∧
        nf.password ≠ f.password ∧
        nf.role = f.role ∧
        register db session salt (some f) =
          (Response.redirect "/login" ["Registered successfully!"],
            { db with farmers := db.farmers ++ [nf] }, session)) := by
  constructor
  · intro h
    obtain ⟨fr, hfr⟩ := Option.isSome_iff_exists.mp h
    simp [register, hv, hfr]
  · intro h
    refine ⟨{ id := nextFarmerId db, username := f.username,
              password := generate_password_hash salt f.password,
              role := f.role, qr_code := none },
            rfl, rfl, generate_ne_plaintext salt f.password, rfl, ?_⟩
    simp [register, hv, h]

/-- Witness for C2: registering username "alice" (taken) against the
sample store, with the duplicate branch exercised at that input. -/
theorem C2_register_duplicate_rejected_fresh_created_witness :
    RegisterFormData.validates
        { username := "alice", password := "p", confirm_password := "p",
          role := "buyer" } = true ∧
    (sampleDB.farmers.find? (fun fr => fr.username == "alice")).isSome = true ∧
    register sampleDB none 'z'
        (some { username := "alice", password := "p", confirm_password := "p",
                role := "buyer" }) =
      (Response.redirect "/register"
        ["Username already exists. Please choose another."], sampleDB, none) :=
  ⟨rfl, rfl,
    (C2_register_duplicate_rejected_fresh_created sampleDB none 'z'
      { username := "alice", password := "p", confirm_password := "p",
        role := "buyer" } rfl).1 rfl⟩

/-- **C3.** For every logged-in account whose role is not `farmer`, any
request to `/sell_rice` (GET or a valid POST) redirects to `/` with the
role-mismatch flash and leaves the product table unchanged. -/
theorem C3_sell_rice_role_mismatch_redirects
    (db : DB) (session : Option Nat) (user : Farmer)
    (hu : currentUser db session = some user)
    (hrole : user.role ≠ "farmer") :
    ∀ form : Option SellRiceFormData,
      sell_rice db session form =
        (Response.redirect "/" ["You must be a farmer to sell rice."], db, session) := by
  intro form
  simp [sell_rice, hu, hrole]

/-- Witness for C3: Bob (buyer, id 2) requests `/sell_rice` with a valid
form and with a GET against the sample store. -/
theorem C3_sell_rice_role_mismatch_redirects_witness :
    currentUser sampleDB (some 2) = some bobBuyer ∧
    bobBuyer.role ≠ "farmer" ∧
    sell_rice sampleDB (some 2) (some basmatiForm) =
      (Response.redirect "/" ["You must be a farmer to sell rice."], sampleDB, some 2) ∧
    sell_rice sampleDB (some 2) none =
      (Response.redirect "/" ["You must be a farmer to sell rice."], sampleDB, some 2) :=
  ⟨rfl, by decide,
    C3_sell_rice_role_mismatch_redirects sampleDB (some 2) bobBuyer rfl (by decide)
      (some basmatiForm),
    C3_sell_rice_role_mismatch_redirects sampleDB (some 2) bobBuyer rfl (by decide) none⟩

/-- **C4.** `/product/<id>` returns HTTP 404 when no `RiceProduct` with
that id exists; when one exists it renders the detail page with exactly
the stored row (name, description, price, quantity, image); in neither
case is any stored data modified. -/
theorem C4_product_details_lookup
    (db : DB) (session : Option Nat) (id : Nat) :
    (product_details db session id).2 = (db, session) ∧
    (db.products.find? (fun p => p.id == id) = none →
      (product_details db session id).1 = Response.notFound) ∧
    (∀ p : RiceProduct, db.products.find? (fun q => q.id == id) = some p →
      (product_details db session id).1 =
        Response.render (Page.productDetailsPage p) []) := by
  refine ⟨?_, ?_, ?_⟩
  · unfold product_details
    cases h : db.products.find? (fun p => p.id == id) <;> simp
  · intro h
    simp [product_details, h]
  · intro p h
    simp [product_details, h]

/-- Witness for C4: looking up the missing id 5 and the present id 1 in
the one-product sample store. -/
theorem C4_product_details_lookup_witness :
    (product_details sampleDB1 none 5).2 = (sampleDB1, none) ∧
    (sampleDB1.products.find? (fun p => p.id == 5) = none →
      (product_details sampleDB1 none 5).1 = Response.notFound) ∧
    (∀ p : RiceProduct, sampleDB1.products.find? (fun q => q.id == 5) = some p →
      (product_details sampleDB1 none 5).1 =
        Response.render (Page.productDetailsPage p) []) ∧
    (product_details sampleDB1 none 5).1 = Response.notFound ∧
    (product_details sampleDB1 none 1).1 =
      Response.render (Page.productDetailsPage basmatiRow) [] :=
  ⟨(C4_product_details_lookup sampleDB1 none 5).1,
    (C4_product_details_lookup sampleDB1 none 5).2.1,
    (C4_product_details_lookup sampleDB1 none 5).2.2,
    (C4_product_details_lookup sampleDB1 none 5).2.1 rfl,
    (C4_product_details_lookup sampleDB1 none 1).2.2 basmatiRow rfl⟩

/-- **C5.** For every logged-in account: with role `farmer`,
`/buy_now/<id>` redirects to `/` with a flash; with role `buyer` and an
existing product, it renders the payment page with that product's data and
the owning farmer's stored `qr_code` field (an `Option`, so possibly
null). -/
theorem C5_buy_now_role_and_payment_page
    (db : DB) (session : Option Nat) (user : Farmer)
    (hu : currentUser db session = some user) :
    (user.role = "farmer" →
      ∀ id : Nat, buy_now db session id =
        (Response.redirect "/" ["Only buyers can make purchases."], db, session)) ∧
    (user.role = "buyer" →
      ∀ (id : Nat) (product : RiceProduct) (farmer : Farmer),
        db.products.find? (fun p => p.id == id) = some product →
        db.farmers.find? (fun fr => fr.id == product.farmer_id) = some farmer →
        buy_now db session id =
          (Response.render (Page.paymentPage product farmer.qr_code) [], db, session)) := by
  constructor
  · intro hrole id
    simp [buy_now, hu, hrole]
  · intro hrole id product farmer hp hf
    simp [buy_now, hu, hrole, hp, hf]

/-- Witness for C5: Alice the farmer is redirected from `/buy_now/1`; Bob
the buyer gets the payment page for product 1 with Alice's (null)
`qr_code`. -/
theorem C5_buy_now_role_and_payment_page_witness :
    currentUser sampleDB1 (some 1) = some aliceFarmer ∧
    aliceFarmer.role = "farmer" ∧
    buy_now sampleDB1 (some 1) 1 =
      (Response.redirect "/" ["Only buyers can make purchases."], sampleDB1, some 1) ∧
    currentUser sampleDB1 (some 2) = some bobBuyer ∧
    bobBuyer.role = "buyer" ∧
    buy_now sampleDB1 (some 2) 1 =
      (Response.render (Page.paymentPage basmatiRow aliceFarmer.qr_code) [],
        sampleDB1, some 2) :=
  ⟨rfl, rfl,
    (C5_buy_now_role_and_payment_page sampleDB1 (some 1) aliceFarmer rfl).1 rfl 1,
    rfl, rfl,
    (C5_buy_now_role_and_payment_page sampleDB1 (some 2) bobBuyer rfl).2 rfl 1
      basmatiRow aliceFarmer rfl rfl⟩

/-- **C6.** The two `/login` failure causes — unknown username, and known
username with a failing hash check — produce the same generic
invalid-credentials response and leave the session unchanged, so the two
causes are indistinguishable from the rendered outcome. -/
theorem C6_login_failures_indistinguishable
    (db : DB) (session : Option Nat) (f g : LoginFormData) (fr : Farmer)
    (hfv : f.validates = true) (hgv : g.validates = true)
    (hf : db.farmers.find? (fun x => x.username == f.username) = none)
    (hg : db.farmers.find? (fun x => x.username == g.username) = some fr)
    (hpw : check_password_hash fr.password g.password = false) :
    login db session (some f) =
      (Response.render Page.loginPage ["Invalid username or password"], db, session) ∧
    login db session (some g) =
      (Response.render Page.loginPage ["Invalid username or password"], db, session) ∧
    login db session (some f) = login db session (some g) := by
  refine ⟨?_, ?_, ?_⟩
  · simp [login, hfv, hf]
  · simp [login, hgv, hg, hpw]
  · simp [login, hfv, hgv, hf, hg, hpw]

/-- Witness for C6: an unknown username "nobody" and Alice with the wrong
password "bad" fail identically against the sample store. -/
theorem C6_login_failures_indistinguishable_witness :
    LoginFormData.validates { username := "nobody", password := "pw" } = true ∧
    LoginFormData.validates { username := "alice", password := "bad" } = true ∧
    sampleDB.farmers.find? (fun x => x.username == "nobody") = none ∧
    sampleDB.farmers.find? (fun x => x.username == "alice") = some aliceFarmer ∧
    check_password_hash aliceFarmer.password "bad" = false ∧
    login sampleDB none (some { username := "nobody", password := "pw" }) =
      (Response.render Page.loginPage ["Invalid username or password"],
        sampleDB, none) ∧
    login sampleDB none (some { username := "alice", password := "bad" }) =
      (Response.render Page.loginPage ["Invalid username or password"],
        sampleDB, none) ∧
    login sampleDB none (some { username := "nobody", password := "pw" }) =
      login sampleDB none (some { username := "alice", password := "bad" }) :=
  ⟨rfl, rfl, rfl, rfl, rfl,
    (C6_login_failures_indistinguishable sampleDB none
      { username := "nobody", password := "pw" }
      { username := "alice", password := "bad" } aliceFarmer
      rfl rfl rfl rfl rfl).1,
    (C6_login_failures_indistinguishable sampleDB none
      { username := "nobody", password := "pw" }
      { username := "alice", password := "bad" } aliceFarmer
      rfl rfl rfl rfl rfl).2.1,
    (C6_login_failures_indistinguishable sampleDB none
      { username := "nobody", password := "pw" }
      { username := "alice", password := "bad" } aliceFarmer
      rfl rfl rfl rfl rfl).2.2⟩

/-- **C7 counterexample.** The claim says every failed `/register`
submission re-renders the form rather than redirecting; at the concrete
duplicate-username input below the handler issues a redirect to
`/register`, not a render. -/
theorem C7_counterexample_duplicate_redirects :
    (register sampleDB none 'z'
        (some { username := "alice", password := "p", confirm_password := "p",
                role := "buyer" })).1 =
      Response.redirect "/register"
        ["Username already exists. Please choose another."] ∧
    Response.isRedirect (register sampleDB none 'z'
        (some { username := "alice", password := "p", confirm_password := "p",
                role := "buyer" })).1 = true ∧
    Response.isRender (register sampleDB none 'z'
        (some { username := "alice", password := "p", confirm_password := "p",
                role := "buyer" })).1 = false :=
  ⟨rfl, rfl, rfl⟩

/-- **C7 (amended).** A `/register` submission that fails form validation
re-renders the registration form; a submission that fails because the
username is already taken instead issues a redirect to `/register` with
the "username already exists" flash — not a re-render. -/
theorem C7_register_failure_responses
    (db : DB) (session : Option Nat) (salt : Char) (f : RegisterFormData) :
    (f.validates = false →
      register db session salt (some f) =
        (Response.render Page.registerPage [], db, session)) ∧
    (f.validates = true →
      (db.farmers.find? (fun fr => fr.username == f.username)).isSome = true →
      (register db session salt (some f)).1 =
        Response.redirect "/register"
          ["Username already exists. Please choose another."] ∧
      Response.isRender (register db session salt (some f)).1 = false) := by
  constructor
  · intro h
    simp [register, h]
  · intro hv h
    obtain ⟨fr, hfr⟩ := Option.isSome_iff_exists.mp h
    constructor <;> simp [register, hv, hfr, Response.isRender]

/-- Witness for the amended C7: an empty-username submission re-renders;
the duplicate "alice" submission redirects. -/
theorem C7_register_failure_responses_witness :
    RegisterFormData.validates
        { username := "", password := "p", confirm_password := "p",
          role := "buyer" } = false ∧
    register sampleDB none 'z'
        (some { username := "", password := "p", confirm_password := "p",
                role := "buyer" }) =
      (Response.render Page.registerPage [], sampleDB, none) ∧
    (register sampleDB none 'z'
        (some { username := "alice", password := "p", confirm_password := "p",
                role := "buyer" })).1 =
      Response.redirect "/register"
        ["Username already exists. Please choose another."] ∧
    Response.isRender (register sampleDB none 'z'
        (some { username := "alice", password := "p", confirm_password := "p",
                role := "buyer" })).1 = false :=
  ⟨rfl,
    (C7_register_failure_responses sampleDB none 'z'
      { username := "", password := "p", confirm_password := "p",
        role := "buyer" }).1 rfl,
    ((C7_register_failure_responses sampleDB none 'z'
      { username := "alice", password := "p", confirm_password := "p",
        role := "buyer" }).2 rfl rfl).1,
    ((C7_register_failure_responses sampleDB none 'z'
      { username := "alice", password := "p", confirm_password := "p",
        role := "buyer" }).2 rfl rfl).2⟩

/-- **C8.** For every password string, `User.set_password` followed by
`User.check_password` with the same password returns `true`: a round trip
through the stored hash. -/
theorem C8_set_password_check_password_roundtrip
    (u : User) (salt : Char) (p : String) :
    (u.set_password salt p).check_password p = true := by
  simp [User.set_password, User.check_password, check_generate]

/-- **C9.** For a logged-in buyer, if the requested product exists but no
farmer row has its `farmer_id` (an orphaned product), `/buy_now/<id>`
returns HTTP 404 instead of rendering the payment page. -/
theorem C9_buy_now_orphan_product_404
    (db : DB) (session : Option Nat) (user : Farmer) (id : Nat)
    (product : RiceProduct)
    (hu : currentUser db session = some user)
    (hrole : user.role = "buyer")
    (hp : db.products.find? (fun p => p.id == id) = some product)
    (hf : db.farmers.find? (fun fr => fr.id == product.farmer_id) = none) :
    buy_now db session id = (Response.notFound, db, session) := by
  simp [buy_now, hu, hrole, hp, hf]

/-- Witness for C9: Bob the buyer requests `/buy_now/1` in the store whose
only product points at the nonexistent farmer 99. -/
theorem C9_buy_now_orphan_product_404_witness :
    currentUser orphanDB (some 2) = some bobBuyer ∧
    bobBuyer.role = "buyer" ∧
    orphanDB.products.find? (fun p => p.id == 1) = some orphanRow ∧
    orphanDB.farmers.find? (fun fr => fr.id == orphanRow.farmer_id) = none ∧
    buy_now orphanDB (some 2) 1 = (Response.notFound, orphanDB, some 2) :=
  ⟨rfl, rfl, rfl, rfl,
    C9_buy_now_orphan_product_404 orphanDB (some 2) bobBuyer 1 orphanRow
      rfl rfl rfl rfl⟩

/-- **C10.** A `/register` request never changes the session identity, and
after a successful registration the new account is not logged in until a
subsequent successful `/login` with the registered credentials, which then
binds the session to the new account's id. -/
theorem C10_register_does_not_establish_session
    (db : DB) (session : Option Nat) (salt : Char) (f : RegisterFormData)
    (hv : f.validates = true)
    (hfresh : db.farmers.find? (fun fr => fr.username == f.username) = none) :
    (∀ form : Option RegisterFormData,
      (register db session salt form).2.2 = session) ∧
    ∃ nf : Farmer,
      (register db session salt (some f)).2.1.farmers = db.farmers ++ [nf] ∧
      nf.username = f.username ∧
      login (register db session salt (some f)).2.1 session
          (some { username := f.username, password := f.password }) =
        (Response.redirect "/" ["Logged in successfully!"],
          (register db session salt (some f)).2.1, some nf.id) := by
  constructor
  · intro form
    cases form with
    | none => rfl
    | some g =>
      simp only [register]
      split
      · split <;> rfl
      · rfl
  · refine Exists.intro
      (⟨nextFarmerId db, f.username, generate_password_hash salt f.password,
        f.role, none⟩ : Farmer) ⟨?_, rfl, ?_⟩
    · simp [register, hv, hfresh]
    · have hlookup :
          List.find? (fun fr => fr.username == f.username)
              (db.farmers ++
                [(⟨nextFarmerId db, f.username,
                   generate_password_hash salt f.password, f.role, none⟩ : Farmer)]) =
            some (⟨nextFarmerId db, f.username,
              generate_password_hash salt f.password, f.role, none⟩ : Farmer) :=
        find?_append_singleton _ db.farmers _ hfresh (by simp)
      have hv2 := hv
      simp only [RegisterFormData.validates, Bool.and_eq_true, Bool.not_eq_true',
        beq_eq_false_iff_ne, ne_eq] at hv2
      simp [register, login, hv, hfresh, LoginFormData.validates, hlookup,
        check_generate, hv2.1.1.1.1, hv2.1.1.1.2]

/-- Witness for C10: registering "carol" against the sample store leaves
the (empty) session untouched, and a subsequent login as "carol" binds the
session to the new account. -/
theorem C10_register_does_not_establish_session_witness :
    RegisterFormData.validates
        { username := "carol", password := "p", confirm_password := "p",
          role := "buyer" } = true ∧
    sampleDB.farmers.find? (fun fr => fr.username == "carol") = none ∧
    ((∀ form : Option RegisterFormData,
        (register sampleDB none 'z' form).2.2 = none) ∧
      ∃ nf : Farmer,
        (register sampleDB none 'z'
            (some { username := "carol", password := "p",
                    confirm_password := "p", role := "buyer" })).2.1.farmers =
          sampleDB.farmers ++ [nf] ∧
        nf.username = "carol" ∧
        login (register sampleDB none 'z'
              (some { username := "carol", password := "p",
                      confirm_password := "p", role := "buyer" })).2.1 none
            (some { username := "carol", password := "p" }) =
          (Response.redirect "/" ["Logged in successfully!"],
            (register sampleDB none 'z'
              (some { username := "carol", password := "p",
                      confirm_password := "p", role := "buyer" })).2.1,
            some nf.id)) :=
  ⟨rfl, rfl,
    C10_register_does_not_establish_session sampleDB none 'z'
      { username := "carol", password := "p", confirm_password := "p",
        role := "buyer" } rfl rfl⟩
